import Mathlib

/-!
Shallow embedding of `src/boltzgen/utils/device.py`: PyTorch device-selection
helpers (`get_device_type`, `get_device`, `get_device_count`,
`get_device_capability`, `empty_cache`, `get_autocast_device_type`).

The underlying torch runtime is modelled as a `Runtime` record holding the
responses of every torch API the module consults.  Python exceptions are
modelled with `Except PyErr`; a torch call that the source does not wrap in
`try`/`except` propagates its error to the caller, exactly as in Python.
-/

namespace BoltzgenDevice

/-- Python exception classes relevant to the module: the two classes caught by
`get_autocast_device_type` (`RuntimeError`, `TypeError`), the
`AttributeError` that an unguarded access to a missing `torch.backends.mps`
attribute would raise, and a stand-in for any other runtime fault. -/
inductive PyErr where
  | runtimeError
  | typeError
  | attributeError
  | otherError
  deriving DecidableEq, Repr

/-- The state of the underlying torch runtime, as observed through the APIs
the module calls.

* `cudaIsAvailable` — result of `torch.cuda.is_available()`.
* `mpsBackendAttr` — `none` when `torch.backends` has no `mps` attribute
  (so `hasattr(torch.backends, "mps")` is `False` and reading
  `torch.backends.mps` would raise `AttributeError`); `some b` when the
  attribute exists and `torch.backends.mps.is_available()` returns `b`.
* `cudaDeviceCount` — result of `torch.cuda.device_count()`.
* `cudaGetDeviceCapability` — outcome of `torch.cuda.get_device_capability()`:
  either the reported `(major, minor)` pair or a raised exception.
* `cudaEmptyCacheErr` / `mpsEmptyCacheErr` — `none` when the corresponding
  `empty_cache()` torch call succeeds, `some e` when it raises `e`.
* `mpsAutocastProbe` — `none` when entering and exiting
  `torch.autocast(device_type="mps")` succeeds, `some e` when it raises `e`. -/
structure Runtime where
  cudaIsAvailable : Bool
  mpsBackendAttr : Option Bool
  cudaDeviceCount : Nat
  cudaGetDeviceCapability : Except PyErr (Nat × Nat)
  cudaEmptyCacheErr : Option PyErr
  mpsEmptyCacheErr : Option PyErr
  mpsAutocastProbe : Option PyErr

/-- Reading `torch.backends.mps.is_available()` without any guard: raises
`AttributeError` when the `mps` attribute is absent. -/
def torch_backends_mps_is_available (rt : Runtime) : Except PyErr Bool :=
  match rt.mpsBackendAttr with
  | none => .error .attributeError
  | some b => .ok b

/-- The guard `hasattr(torch.backends, "mps")`. -/
def hasattr_torch_backends_mps (rt : Runtime) : Bool :=
  rt.mpsBackendAttr.isSome

/-- Embedding of `get_device_type()`:
`"cuda"` if `torch.cuda.is_available()`, else `"mps"` if
`hasattr(torch.backends, "mps") and torch.backends.mps.is_available()`,
else `"cpu"`.  The `and` short-circuits, so the availability query is only
evaluated behind the `hasattr` guard. -/
def get_device_type (rt : Runtime) : Except PyErr String :=
  if rt.cudaIsAvailable then .ok "cuda"
  else if hasattr_torch_backends_mps rt then
    match torch_backends_mps_is_available rt with
    | .error e => .error e
    | .ok true => .ok "mps"
    | .ok false => .ok "cpu"
  else .ok "cpu"

/-- A `torch.device` object; the only attribute the spec talks about is its
type tag. -/
structure TorchDevice where
  type : String
  deriving DecidableEq, Repr

/-- The `torch.device(str)` constructor. -/
def torch_device (s : String) : TorchDevice := ⟨s⟩

/-- Embedding of `get_device()`: `torch.device(get_device_type())`. -/
def get_device (rt : Runtime) : Except PyErr TorchDevice :=
  match get_device_type rt with
  | .error e => .error e
  | .ok s => .ok (torch_device s)

/-- Embedding of `get_device_count()`: `torch.cuda.device_count()` for
`"cuda"`, else `1`. -/
def get_device_count (rt : Runtime) : Except PyErr Nat :=
  match get_device_type rt with
  | .error e => .error e
  | .ok device_type =>
    if device_type = "cuda" then .ok rt.cudaDeviceCount
    else .ok 1

/-- Embedding of `get_device_capability()`:
`torch.cuda.get_device_capability()` for `"cuda"` (uncaught, so any raised
exception propagates), else the sentinel `(8, 0)`. -/
def get_device_capability (rt : Runtime) : Except PyErr (Nat × Nat) :=
  match get_device_type rt with
  | .error e => .error e
  | .ok device_type =>
    if device_type = "cuda" then rt.cudaGetDeviceCapability
    else .ok (8, 0)

/-- The external cache-clearing calls `empty_cache()` can issue. -/
inductive CacheEffect where
  | cudaEmptyCache
  | mpsEmptyCache
  deriving DecidableEq, Repr

/-- Embedding of `empty_cache()`: returns the list of torch cache-clear calls
issued together with the exception that propagates to the caller, if any
(`none` when the function returns normally).  The source wraps neither
`torch.cuda.empty_cache()` nor `torch.mps.empty_cache()` in `try`/`except`. -/
def empty_cache (rt : Runtime) : List CacheEffect × Option PyErr :=
  match get_device_type rt with
  | .error e => ([], some e)
  | .ok device_type =>
    if device_type = "cuda" then ([.cudaEmptyCache], rt.cudaEmptyCacheErr)
    else if device_type = "mps" then ([.mpsEmptyCache], rt.mpsEmptyCacheErr)
    else ([], none)

/-- Embedding of `get_autocast_device_type()`: returns the device type
directly for `"cuda"` and `"cpu"`; for `"mps"` it probes
`torch.autocast(device_type="mps")`, returning `"mps"` on success and
`"cpu"` when the probe raises `RuntimeError` or `TypeError` (the only
classes the `except` clause catches — any other exception propagates);
a final `return "cpu"` covers any remaining device type. -/
def get_autocast_device_type (rt : Runtime) : Except PyErr String :=
  match get_device_type rt with
  | .error e => .error e
  | .ok device_type =>
    if device_type ∈ ["cuda", "cpu"] then .ok device_type
    else if device_type = "mps" then
      match rt.mpsAutocastProbe with
      | none => .ok "mps"
      | some e =>
        if e = .runtimeError ∨ e = .typeError then .ok "cpu"
        else .error e
    else .ok "cpu"

/-- The final fallback `return "cpu"` of `get_autocast_device_type` is reached
exactly when the device type is none of `"cuda"`, `"cpu"`, `"mps"`. -/
def autocast_final_fallback_reached (rt : Runtime) : Prop :=
  ∃ device_type, get_device_type rt = .ok device_type ∧
    device_type ∉ ["cuda", "cpu"] ∧ device_type ≠ "mps"

/-- The six module entry points, as names, for reasoning about call
sequences. -/
inductive Call where
  | deviceType
  | device
  | deviceCount
  | deviceCapability
  | cacheClear
  | autocastDeviceType
  deriving DecidableEq, Repr

/-- The result of one module call. -/
inductive CallResult where
  | tag (r : Except PyErr String)
  | dev (r : Except PyErr TorchDevice)
  | count (r : Except PyErr Nat)
  | capability (r : Except PyErr (Nat × Nat))
  | cache (r : List CacheEffect × Option PyErr)

/-- Evaluate one module call against the runtime.  The module holds no
mutable state of its own (no module-level variable, no cache), so a call is
a pure function of the runtime responses. -/
def evalCall (rt : Runtime) : Call → CallResult
  | .deviceType => .tag (get_device_type rt)
  | .device => .dev (get_device rt)
  | .deviceCount => .count (get_device_count rt)
  | .deviceCapability => .capability (get_device_capability rt)
  | .cacheClear => .cache (empty_cache rt)
  | .autocastDeviceType => .tag (get_autocast_device_type rt)

/-- Run a sequence of module calls against a fixed runtime, collecting the
results in order. -/
def runCalls (rt : Runtime) : List Call → List CallResult
  | [] => []
  | c :: cs => evalCall rt c :: runCalls rt cs

/-- A runtime whose CUDA check reports available while the mps backend also
reports available: used to exercise the CUDA-priority branch. -/
def rtCudaAndMps : Runtime :=
  ⟨true, some true, 2, .ok (9, 0), none, none, none⟩

/-- A runtime with CUDA unavailable, the mps backend available, and an mps
autocast probe that raises `RuntimeError`. -/
def rtMpsProbeFails : Runtime :=
  ⟨false, some true, 0, .ok (8, 0), none, none, some .runtimeError⟩

/-- A runtime with CUDA available but zero CUDA devices, whose capability
query raises. -/
def rtCudaZeroDevices : Runtime :=
  ⟨true, none, 0, .error .runtimeError, none, none, none⟩

/-- A runtime with CUDA available whose `torch.cuda.empty_cache()` call
raises `RuntimeError`. -/
def rtCudaCacheFails : Runtime :=
  ⟨true, none, 1, .ok (8, 0), some .runtimeError, none, none⟩

/-- A runtime with CUDA unavailable and no `mps` attribute on
`torch.backends` at all (an older torch build). -/
def rtNoMpsAttr : Runtime :=
  ⟨false, none, 0, .ok (8, 0), none, none, none⟩

/-- A runtime with CUDA unavailable and the mps backend present but
reporting unavailable. -/
def rtCpuOnly : Runtime :=
  ⟨false, some false, 0, .ok (8, 0), none, none, none⟩

/-- A runtime selecting mps whose autocast probe succeeds. -/
def rtMpsProbeOk : Runtime :=
  ⟨false, some true, 0, .ok (8, 0), none, none, none⟩

/-- Case analysis on `get_device_type`: it returns `.ok "cuda"` exactly on
CUDA-available states, `.ok "mps"` exactly when CUDA is unavailable and the
mps backend exists and reports available, and `.ok "cpu"` otherwise. -/
theorem get_device_type_eq (rt : Runtime) :
    get_device_type rt =
      if rt.cudaIsAvailable then .ok "cuda"
      else if rt.mpsBackendAttr = some true then .ok "mps"
      else .ok "cpu" := by
  rcases rt with ⟨c, m, n, cap, ce, me, pr⟩
  cases c <;> rcases m with _ | b <;> first
    | rfl
    | cases b <;> rfl

/-- `get_device_type` never raises: it always returns one of the three tags. -/
theorem get_device_type_total (rt : Runtime) :
    get_device_type rt = .ok "cuda" ∨ get_device_type rt = .ok "mps" ∨
      get_device_type rt = .ok "cpu" := by
  rw [get_device_type_eq]
  by_cases hc : rt.cudaIsAvailable <;>
    by_cases hm : rt.mpsBackendAttr = some true <;> simp [hc, hm]

/-- C1: for every state of the underlying runtime, `get_device_type` returns
exactly one of `"cuda"`, `"mps"`, `"cpu"` and never fails, honoring fixed
priority: if the CUDA availability check reports true it returns `"cuda"`
regardless of the mps state; otherwise if the mps backend exists and reports
available it returns `"mps"`; otherwise it returns `"cpu"`. -/
theorem c1_get_device_type_priority (rt : Runtime) :
    (get_device_type rt = .ok "cuda" ∨ get_device_type rt = .ok "mps" ∨
      get_device_type rt = .ok "cpu") ∧
    (rt.cudaIsAvailable = true → get_device_type rt = .ok "cuda") ∧
    (rt.cudaIsAvailable = false → rt.mpsBackendAttr = some true →
      get_device_type rt = .ok "mps") ∧
    (rt.cudaIsAvailable = false → rt.mpsBackendAttr ≠ some true →
      get_device_type rt = .ok "cpu") := by
  refine ⟨get_device_type_total rt, ?_, ?_, ?_⟩
  · intro hc; rw [get_device_type_eq]; simp [hc]
  · intro hc hm; rw [get_device_type_eq]; simp [hc, hm]
  · intro hc hm; rw [get_device_type_eq]; simp [hc, hm]

/-- C1 witness: with CUDA available and the mps backend also available, the
CUDA branch wins. -/
theorem c1_witness : get_device_type rtCudaAndMps = .ok "cuda" :=
  (c1_get_device_type_priority rtCudaAndMps).2.1 rfl

/-- C6: `get_device` returns a device handle constructed from
`get_device_type`'s result, so the handle's type tag equals the string
`get_device_type` returns in the same runtime state. -/
theorem c6_get_device_tag (rt : Runtime) :
    ∃ d : TorchDevice, get_device rt = .ok d ∧
      get_device_type rt = .ok d.type := by
  rcases get_device_type_total rt with h | h | h <;>
    exact ⟨_, by simp [get_device, torch_device, h], h⟩

/-- C7: `get_device_type` does not fail when the mps availability API is
absent from the runtime: with CUDA unavailable and no `mps` attribute it
returns `"cpu"` rather than raising, even though the unguarded availability
query would raise `AttributeError` in that state. -/
theorem c7_hasattr_guard (rt : Runtime) (hc : rt.cudaIsAvailable = false)
    (hm : rt.mpsBackendAttr = none) :
    get_device_type rt = .ok "cpu" ∧
      torch_backends_mps_is_available rt = .error .attributeError := by
  constructor
  · rw [get_device_type_eq]; simp [hc, hm]
  · simp [torch_backends_mps_is_available, hm]

/-- C7 witness: the no-mps-attribute runtime selects `"cpu"`. -/
theorem c7_witness :
    get_device_type rtNoMpsAttr = .ok "cpu" ∧
      torch_backends_mps_is_available rtNoMpsAttr = .error .attributeError :=
  c7_hasattr_guard rtNoMpsAttr rfl rfl

/-- C3: `get_device_count` returns 1 whenever `get_device_type` is `"mps"`
or `"cpu"`, and returns exactly the count reported by
`torch.cuda.device_count()` when it is `"cuda"` — a reported count of 0 is
passed through unchanged, not treated as an error. -/
theorem c3_get_device_count (rt : Runtime) :
    (get_device_type rt = .ok "mps" → get_device_count rt = .ok 1) ∧
    (get_device_type rt = .ok "cpu" → get_device_count rt = .ok 1) ∧
    (get_device_type rt = .ok "cuda" →
      get_device_count rt = .ok rt.cudaDeviceCount) := by
  refine ⟨fun h => ?_, fun h => ?_, fun h => ?_⟩ <;>
    simp [get_device_count, h]

/-- C3 witness: a CUDA runtime reporting zero devices yields a count of 0. -/
theorem c3_witness : get_device_count rtCudaZeroDevices = .ok 0 :=
  (c3_get_device_count rtCudaZeroDevices).2.2 rfl

/-- C4: `get_device_capability` returns the fixed sentinel pair (8, 0)
whenever `get_device_type` is `"mps"` or `"cpu"`, and returns exactly the
outcome of the `torch.cuda.get_device_capability()` query when it is
`"cuda"`. -/
theorem c4_get_device_capability (rt : Runtime) :
    (get_device_type rt = .ok "mps" → get_device_capability rt = .ok (8, 0)) ∧
    (get_device_type rt = .ok "cpu" → get_device_capability rt = .ok (8, 0)) ∧
    (get_device_type rt = .ok "cuda" →
      get_device_capability rt = rt.cudaGetDeviceCapability) := by
  refine ⟨fun h => ?_, fun h => ?_, fun h => ?_⟩ <;>
    simp [get_device_capability, h]

/-- C4 witness: a CUDA runtime reporting capability (9, 0) yields (9, 0). -/
theorem c4_witness : get_device_capability rtCudaAndMps = .ok (9, 0) :=
  (c4_get_device_capability rtCudaAndMps).2.2 rfl

/-- C5 counterexample: the claim that `empty_cache` "must not raise — no
failure is signaled to the caller even if the underlying cache-clear fails"
is false on the code, which wraps neither torch call in `try`/`except`: in a
CUDA-selected state whose `torch.cuda.empty_cache()` raises `RuntimeError`,
that exception propagates to `empty_cache`'s caller. -/
theorem c5_counterexample :
    get_device_type rtCudaCacheFails = .ok "cuda" ∧
      (empty_cache rtCudaCacheFails).2 = some .runtimeError :=
  ⟨rfl, rfl⟩

/-- C5 (amended): `empty_cache` invokes exactly the CUDA cache-clear when
the device type is `"cuda"`, exactly the mps cache-clear when it is
`"mps"`, and performs no action and cannot raise when it is `"cpu"`; it
returns no value, and a failure of the invoked underlying cache-clear
propagates to the caller unchanged. -/
theorem c5_empty_cache_dispatch (rt : Runtime) :
    (get_device_type rt = .ok "cuda" →
      empty_cache rt = ([.cudaEmptyCache], rt.cudaEmptyCacheErr)) ∧
    (get_device_type rt = .ok "mps" →
      empty_cache rt = ([.mpsEmptyCache], rt.mpsEmptyCacheErr)) ∧
    (get_device_type rt = .ok "cpu" → empty_cache rt = ([], none)) := by
  refine ⟨fun h => ?_, fun h => ?_, fun h => ?_⟩ <;>
    simp [empty_cache, h]

/-- C5 witness: in a CPU-only state `empty_cache` issues no torch call and
raises nothing. -/
theorem c5_witness : empty_cache rtCpuOnly = ([], none) :=
  (c5_empty_cache_dispatch rtCpuOnly).2.2 rfl

/-- C2: under the external contract that the mps autocast probe either
succeeds or raises a recoverable `RuntimeError`/`TypeError`,
`get_autocast_device_type` returns the device type directly when it is
`"cuda"` or `"cpu"`; when it is `"mps"` it returns `"mps"` if the probe
succeeds and `"cpu"` if the probe raises, the exception being caught
locally and never surfaced; in every branch it returns a concrete string,
never a missing value. -/
theorem c2_get_autocast_device_type (rt : Runtime)
    (hp : rt.mpsAutocastProbe = none ∨
      rt.mpsAutocastProbe = some .runtimeError ∨
      rt.mpsAutocastProbe = some .typeError) :
    (get_device_type rt = .ok "cuda" →
      get_autocast_device_type rt = .ok "cuda") ∧
    (get_device_type rt = .ok "cpu" →
      get_autocast_device_type rt = .ok "cpu") ∧
    (get_device_type rt = .ok "mps" → rt.mpsAutocastProbe = none →
      get_autocast_device_type rt = .ok "mps") ∧
    (get_device_type rt = .ok "mps" → ∀ e, rt.mpsAutocastProbe = some e →
      get_autocast_device_type rt = .ok "cpu") ∧
    (∃ s, get_autocast_device_type rt = .ok s) := by
  refine ⟨fun h => ?_, fun h => ?_, fun h hpr => ?_, fun h e he => ?_, ?_⟩
  · simp [get_autocast_device_type, h]
  · simp [get_autocast_device_type, h]
  · simp [get_autocast_device_type, h, hpr]
  · rcases hp with hp | hp | hp
    · rw [he] at hp; exact absurd hp (by simp)
    · rw [he] at hp; injection hp with hpe
      simp [get_autocast_device_type, h, he, hpe]
    · rw [he] at hp; injection hp with hpe
      simp [get_autocast_device_type, h, he, hpe]
  · rcases get_device_type_total rt with h | h | h
    · exact ⟨"cuda", by simp [get_autocast_device_type, h]⟩
    · rcases hp with hp | hp | hp
      · exact ⟨"mps", by simp [get_autocast_device_type, h, hp]⟩
      · exact ⟨"cpu", by simp [get_autocast_device_type, h, hp]⟩
      · exact ⟨"cpu", by simp [get_autocast_device_type, h, hp]⟩
    · exact ⟨"cpu", by simp [get_autocast_device_type, h]⟩

/-- C2 witness: in an mps-selected state whose probe raises `RuntimeError`,
the function returns `"cpu"` without surfacing the exception. -/
theorem c2_witness : get_autocast_device_type rtMpsProbeFails = .ok "cpu" :=
  (c2_get_autocast_device_type rtMpsProbeFails
      (Or.inr (Or.inl rfl))).2.2.2.1 rfl .runtimeError rfl

/-- C8: the module keeps no state of its own and caches nothing: every call
is a pure function of the runtime responses, so each result in a call
sequence against a fixed runtime equals the result of evaluating that call
alone, independent of the calls made before or after it. -/
theorem c8_stateless_idempotent :
    (∀ (rt : Runtime) (calls : List Call),
      runCalls rt calls = calls.map (evalCall rt)) ∧
    (∀ (rt : Runtime) (pre post : List Call) (c : Call),
      runCalls rt (pre ++ c :: post) =
        runCalls rt pre ++ evalCall rt c :: runCalls rt post) := by
  have hmap : ∀ (rt : Runtime) (calls : List Call),
      runCalls rt calls = calls.map (evalCall rt) := by
    intro rt calls
    induction calls with
    | nil => rfl
    | cons c cs ih => simp [runCalls, ih]
  refine ⟨hmap, fun rt pre post c => ?_⟩
  simp [hmap]

/-- C9: the final fallback `return "cpu"` of `get_autocast_device_type` is
unreachable — `get_device_type` only yields `"cuda"`, `"mps"`, `"cpu"`, so
every call takes one of the earlier branches — and the function's reachable
results are exactly `"cuda"`, `"mps"`, `"cpu"`, each attained by some
runtime state. -/
theorem c9_final_fallback_unreachable :
    (∀ rt : Runtime, ¬ autocast_final_fallback_reached rt) ∧
    (∀ (rt : Runtime) (s : String), get_autocast_device_type rt = .ok s →
      s = "cuda" ∨ s = "mps" ∨ s = "cpu") ∧
    (∃ rt : Runtime, get_autocast_device_type rt = .ok "cuda") ∧
    (∃ rt : Runtime, get_autocast_device_type rt = .ok "mps") ∧
    (∃ rt : Runtime, get_autocast_device_type rt = .ok "cpu") := by
  refine ⟨?_, ?_, ⟨rtCudaAndMps, rfl⟩, ⟨rtMpsProbeOk, rfl⟩,
    ⟨rtCpuOnly, rfl⟩⟩
  · rintro rt ⟨dt, hdt, hmem, hmps⟩
    rcases get_device_type_total rt with h | h | h <;>
      rw [h] at hdt <;> injection hdt with hdt <;> subst hdt <;>
      simp at hmem hmps
  · intro rt s hs
    rcases get_device_type_total rt with h | h | h
    · simp [get_autocast_device_type, h] at hs
      exact Or.inl hs.symm
    · rcases hpr : rt.mpsAutocastProbe with _ | e
      · simp [get_autocast_device_type, h, hpr] at hs
        exact Or.inr (Or.inl hs.symm)
      · by_cases he : e = PyErr.runtimeError ∨ e = PyErr.typeError
        · simp [get_autocast_device_type, h, hpr, he] at hs
          exact Or.inr (Or.inr hs.symm)
        · simp [get_autocast_device_type, h, hpr, he] at hs
    · simp [get_autocast_device_type, h] at hs
      exact Or.inr (Or.inr hs.symm)

/-- C9 witness: the soundness part applied at a concrete CPU-only state. -/
theorem c9_witness : "cpu" = "cuda" ∨ "cpu" = "mps" ∨ "cpu" = "cpu" :=
  c9_final_fallback_unreachable.2.1 rtCpuOnly "cpu" rfl

/-- C10: in the CUDA case `get_device_capability` performs the capability
query with no guard on the device count: when CUDA reports available with
zero devices, `get_device_count` returns 0 yet `get_device_capability`
still evaluates the query, and any exception it raises propagates uncaught
to the caller. -/
theorem c10_capability_unguarded (rt : Runtime)
    (hc : rt.cudaIsAvailable = true) (hn : rt.cudaDeviceCount = 0) :
    get_device_count rt = .ok 0 ∧
    get_device_capability rt = rt.cudaGetDeviceCapability ∧
    (∀ e, rt.cudaGetDeviceCapability = .error e →
      get_device_capability rt = .error e) := by
  have h : get_device_type rt = .ok "cuda" := by
    rw [get_device_type_eq]; simp [hc]
  refine ⟨?_, ?_, fun e he => ?_⟩
  · simp [get_device_count, h, hn]
  · simp [get_device_capability, h]
  · simp [get_device_capability, h, he]

/-- C10 witness: a CUDA runtime with zero devices whose capability query
raises `RuntimeError` — the count is 0 and the exception propagates. -/
theorem c10_witness :
    get_device_count rtCudaZeroDevices = .ok 0 ∧
      get_device_capability rtCudaZeroDevices = .error .runtimeError := by
  have h := c10_capability_unguarded rtCudaZeroDevices rfl rfl
  exact ⟨h.1, h.2.2 .runtimeError rfl⟩

end BoltzgenDevice
